import Mathlib

/-!
Shallow embedding of the Secure-Password-Manager credential and session
security core, together with theorems checking the natural-language
specification against it.

Embedded source files:
* `src/backend/app/service/input_validation_service.py` (InputValidationService)
* `src/backend/app/service/argon2_service.py` (Argon2Service)
* `src/backend/app/service/jwt_token_service.py` (JwtTokenService)
* `src/backend/totp/totp.py` (Totp)
* `src/backend/app/routes/user_route.py` (login)
* `src/backend/app/routes/totp_route.py` (verify_totp)

Third-party primitives the source calls (the PyJWT `jwt` module, the
`argon2` PasswordHasher, the `pyotp` TOTP generator and Python's `re`
search on the concrete patterns used) are modelled by concrete executable
functions that follow those libraries' documented contracts; each such
model is marked in its doc comment.  Strings are modelled as sequences of
unicode code points, matching Python `str` indexing and `len`.
-/

/-! ## Python string primitives -/

/-- Model of Python `str.strip()` with no argument: remove leading and
trailing whitespace code points. -/
def pyStrip (s : String) : String :=
  String.mk (((s.data.dropWhile Char.isWhitespace).reverse.dropWhile Char.isWhitespace).reverse)

/-- `listStartsWith l pat` holds when `pat` is an initial segment of `l`
(model of an anchored match of a literal pattern). -/
def listStartsWith : List Char → List Char → Bool
  | _, [] => true
  | [], _ :: _ => false
  | c :: cs, p :: ps => c == p && listStartsWith cs ps

/-- `containsSub l pat`: the literal pattern `pat` occurs somewhere in `l`
(model of Python `re.search` on a pattern with no metacharacters). -/
def containsSub : List Char → List Char → Bool
  | [], pat => listStartsWith [] pat
  | c :: rest, pat => listStartsWith (c :: rest) pat || containsSub rest pat

/-- `hasGt l`: some character of `l` is `>`. -/
def hasGt : List Char → Bool
  | [] => false
  | c :: rest => c == '>' || hasGt rest

/-- Model of `re.search(r"<[^>]*>", s)` being a match: the regex matches
iff some `<` is followed, strictly later in the string, by some `>`
(the first `>` after that `<` closes the `<[^>]*>` match). -/
def hasTagPair : List Char → Bool
  | [] => false
  | c :: rest => (c == '<' && hasGt rest) || hasTagPair rest

/-- `\w` of Python `re` restricted to ASCII word characters (the inputs
the validators receive are ASCII; unicode word characters are not needed
by any claim). -/
def isWordChar (c : Char) : Bool := c.isAlphanum || c == '_'

/-- Anchored match of the event-handler regex `on\w+\s*=` at the head of
the (already lowercased) character list. -/
def ehAt : List Char → Bool
  | 'o' :: 'n' :: c :: rest =>
      isWordChar c &&
        (match ((c :: rest).dropWhile isWordChar).dropWhile Char.isWhitespace with
         | '=' :: _ => true
         | _ => false)
  | _ => false

/-- `anySuffix p l`: `p` holds of some suffix of `l` (model of an
unanchored `re.search` given an anchored matcher `p`). -/
def anySuffix (p : List Char → Bool) : List Char → Bool
  | [] => p []
  | c :: rest => p (c :: rest) || anySuffix p rest

/-! ## InputValidationService (`input_validation_service.py`) -/

/-- `InputValidationService._contains_xss_risk`: first the HTML-tag regex
`<[^>]*>`, then the case-insensitive patterns `javascript:`, `on\w+\s*=`,
`<script`, `</script`, `<iframe`, `<object`, `<embed`.  Case
insensitivity is modelled by lowercasing the input before the
case-insensitive patterns are tried. -/
def contains_xss_risk (user_input : String) : Bool :=
  if hasTagPair user_input.data then true
  else
    let low := user_input.data.map Char.toLower
    containsSub low "javascript:".data ||
    anySuffix ehAt low ||
    containsSub low "<script".data ||
    containsSub low "</script".data ||
    containsSub low "<iframe".data ||
    containsSub low "<object".data ||
    containsSub low "<embed".data

/-- `InputValidationService.is_valid_master_password`: strip, then require
`8 <= len <= 512`. -/
def is_valid_master_password (master_password : String) : Bool :=
  let mp := pyStrip master_password
  if ¬ (8 ≤ mp.length ∧ mp.length ≤ 512) then false
  else true

/-- `InputValidationService.is_valid_application_password`: the master
password rule together with the XSS-risk check. -/
def is_valid_application_password (password : String) : Bool :=
  is_valid_master_password password && !(contains_xss_risk password)

/-- `InputValidationService.is_valid_application_name`: length `1..120` of
the raw (untrimmed) string and no XSS risk. -/
def is_valid_application_name (application_name : String) : Bool :=
  if 1 ≤ application_name.length ∧ application_name.length ≤ 120 ∧
      contains_xss_risk application_name = false then true
  else false

/-! ## Argon2Service (`argon2_service.py`)

The `argon2.PasswordHasher` primitive is third-party; it is modelled by a
self-describing hash record (parameters, salt, digest) and an executable
digest function, per the argon2 library's documented contract: `hash`
embeds the current parameters and a fresh salt, `verify` recomputes the
digest with the parameters and salt embedded in the hash and compares.
The fresh random salt is passed explicitly. -/

/-- Cost parameters embedded in an argon2 hash string. -/
structure Argon2Params where
  timeCost : Nat
  memoryCost : Nat
  parallelism : Nat
  deriving DecidableEq

/-- The default parameters of `argon2.PasswordHasher()`. -/
def defaultArgon2Params : Argon2Params := ⟨3, 65536, 4⟩

/-- A self-describing argon2 hash string: algorithm parameters, salt and
digest are all embedded. -/
structure HashStr where
  params : Argon2Params
  salt : Nat
  digest : Nat
  deriving DecidableEq

/-- Executable model of the argon2 digest computation (a deterministic
function of parameters, salt and password). -/
def argonDigest (params : Argon2Params) (salt : Nat) (password : String) : Nat :=
  password.data.foldl (fun a c => a * 131 + c.toNat) 7 * 1009 +
    salt * 97 + params.timeCost * 31 + params.memoryCost * 3 + params.parallelism

/-- `Argon2Service.hash_password`: hash with the current default
parameters and the supplied fresh salt. -/
def hash_password (password : String) (salt : Nat) : HashStr :=
  ⟨defaultArgon2Params, salt, argonDigest defaultArgon2Params salt password⟩

/-- `Argon2Service.verify_hash`: recompute the digest with the parameters
and salt embedded in the hash and compare; the library's mismatch
exception is caught and turned into `false`. -/
def verify_hash (hashed_password : HashStr) (password : String) : Bool :=
  argonDigest hashed_password.params hashed_password.salt password == hashed_password.digest

/-- `Argon2Service.check_needs_rehash`: true iff the embedded parameters
differ from the hasher's current ones. -/
def check_needs_rehash (hashed_password : HashStr) : Bool :=
  decide (hashed_password.params ≠ defaultArgon2Params)

/-! ## JwtTokenService (`jwt_token_service.py`)

The PyJWT `jwt.encode` / `jwt.decode` primitives are third-party; an
encoded token string is modelled as either arbitrary non-JWT text
(`raw`, covering malformed tokens; `raw ""` is the empty token) or a
well-formed three-segment token carrying a header algorithm, a payload
and a signature.  Payloads have the `{sub, iat, exp}` shape this service
issues, so a decoded payload dictionary is never empty and PyJWT's
decoded dict is truthy whenever decoding succeeds.  The HMAC-SHA256
signature is modelled by an executable keyed digest. -/

/-- The `{sub, iat, exp}` claim set of a token payload.  Times are
seconds. -/
structure JwtPayload where
  sub : String
  iat : Nat
  exp : Nat
  deriving DecidableEq

/-- An encoded token string. -/
inductive EncToken where
  | raw (s : String)
  | tok (alg : String) (payload : JwtPayload) (sig : Nat)
  deriving DecidableEq

/-- Model of the server-held signing secret loaded from the environment
(`os.getenv("JWT_SECRET")`). -/
def JWT_SECRET : String := "server-held-jwt-secret"

/-- Executable model of the HMAC-SHA256 signature over a payload under a
secret. -/
def hmacSig (secret : String) (p : JwtPayload) : Nat :=
  secret.data.foldl (fun a c => a * 131 + c.toNat) 11 * 1000003 +
    p.sub.data.foldl (fun a c => a * 131 + c.toNat) 13 * 9176 +
    p.iat * 31 + p.exp

/-- Python truthiness of the encoded token string (`not encoded_jwt`):
only the empty string is falsy; well-formed tokens encode to non-empty
strings. -/
def isEmptyTok : EncToken → Bool
  | .raw s => s == ""
  | .tok _ _ _ => false

/-- Model of `jwt.decode(t, secret, algorithms=["HS256"])` at time `now`:
returns the payload iff the token is well-formed, its header algorithm is
the pinned `HS256`, its signature verifies under `secret`, and its
expiry has not passed (PyJWT raises `ExpiredSignatureError` when
`exp <= now`); every failure raises, modelled as `none`. -/
def jwtDecode (secret : String) (t : EncToken) (now : Nat) : Option JwtPayload :=
  match t with
  | .raw _ => none
  | .tok alg p sig =>
      if alg = "HS256" ∧ sig = hmacSig secret p ∧ now < p.exp then some p else none

/-- Mutable service state: the persisted `jwt_denylist` table (no
uniqueness constraint on the token column). -/
structure JwtState where
  denyList : List EncToken
  deriving DecidableEq

/-- `JwtTokenService.TOKEN_EXPIRATION_MINUTES`. -/
def TOKEN_EXPIRATION_MINUTES : Nat := 30

/-- `JwtTokenService.generate_jwt`: an HS256 token with
`sub = username`, `iat = now`, `exp = now + 30 minutes`. -/
def generate_jwt (username : String) (now : Nat) : EncToken :=
  .tok "HS256" ⟨username, now, now + TOKEN_EXPIRATION_MINUTES * 60⟩
    (hmacSig JWT_SECRET ⟨username, now, now + TOKEN_EXPIRATION_MINUTES * 60⟩)

/-- `JwtTokenService.validate_jwt`: deny-list lookup first, then
`bool(jwt.decode(...))`; the bare `except` turns every failure into
`False`, so the function is total.  The decoded `{sub, iat, exp}` dict is
non-empty, so its truthiness is `True` whenever decoding succeeds. -/
def validate_jwt (st : JwtState) (encoded_jwt : EncToken) (now : Nat) : Bool :=
  if encoded_jwt ∈ st.denyList then false
  else (jwtDecode JWT_SECRET encoded_jwt now).isSome

/-- `JwtTokenService.add_jwt_to_deny_list`: raise on an empty/absent
token, otherwise insert the token into the deny list and commit. -/
def add_jwt_to_deny_list (st : JwtState) (encoded_jwt : EncToken) : Except String JwtState :=
  if isEmptyTok encoded_jwt then Except.error "Token cannot be empty or None"
  else Except.ok ⟨encoded_jwt :: st.denyList⟩

/-- `JwtTokenService.get_username_from_jwt`: decode (no deny-list
consultation) and return the `sub` claim; decoding failures are caught
and become `none`. -/
def get_username_from_jwt (encoded_jwt : EncToken) (now : Nat) : Option String :=
  (jwtDecode JWT_SECRET encoded_jwt now).map (fun p => p.sub)

/-- Whether the result of the revocation call is a success (no exception
raised). -/
def exceptOk : Except String JwtState → Bool
  | .ok _ => true
  | .error _ => false

/-! Spec-side predicates for the four validation checks named by the
specification of `validate` (well-formed, signature valid under pinned
HS256, unexpired, not revoked). -/

/-- The token parses as a three-segment token. -/
def wellFormed : EncToken → Bool
  | .raw _ => false
  | .tok _ _ _ => true

/-- The header algorithm is the pinned `HS256` and the signature verifies
under the server secret. -/
def sigValidHS256 (secret : String) : EncToken → Bool
  | .raw _ => false
  | .tok alg p sig => decide (alg = "HS256" ∧ sig = hmacSig secret p)

/-- The token's expiry has not passed at time `now`. -/
def unexpired (now : Nat) : EncToken → Bool
  | .raw _ => false
  | .tok _ p _ => decide (now < p.exp)

/-! ## Totp (`totp.py`)

The `pyotp` code generation is third-party; the HOTP value of a secret at
a counter is modelled by an executable 6-digit code function.  `pyotp`'s
`TOTP.verify(code)` with its default `valid_window = 0` compares the
candidate against the code of the current 30-second time step only. -/

/-- Decimal digit character of `n % 10`. -/
def digitChar (n : Nat) : Char := Char.ofNat (48 + n % 10)

/-- Fixed-width 6-digit decimal rendering of `n % 1000000`. -/
def toDigits6 (n : Nat) : String :=
  String.mk [digitChar (n / 100000), digitChar (n / 10000), digitChar (n / 1000),
    digitChar (n / 100), digitChar (n / 10), digitChar n]

/-- Executable model of the HOTP 6-digit code of a secret at a counter
(HMAC-SHA1 dynamic truncation in the real library). -/
def hotp6 (secret : String) (counter : Nat) : String :=
  toDigits6 ((secret.data.foldl (fun a c => a * 131 + c.toNat) 17 * 2654435761 +
    counter * 40503 + 11) % 1000000)

/-- The TOTP code of `secret` at unix time `t`: the HOTP code at counter
`t / 30` (30-second time step). -/
def totp_at (secret : String) (t : Nat) : String := hotp6 secret (t / 30)

/-- Model of `pyotp.TOTP(secret).verify(code)` at time `t` with the
default `valid_window = 0`: string comparison against the current step's
code only. -/
def totp_verify (secret code : String) (t : Nat) : Bool := code == totp_at secret t

/-- `Totp.verify_totp_code`: raise when secret or code is empty, else
`pyotp.TOTP(secret).verify(user_code)` with the library default
window. -/
def verify_totp_code (secret user_code : String) (t : Nat) : Except String Bool :=
  if secret = "" ∨ user_code = "" then
    Except.error "Secret or User Code not provided when trying to verify TOTP code."
  else Except.ok (totp_verify secret user_code t)

/-! ## Route handlers (`user_route.py` login, `totp_route.py` verify_totp) -/

/-- A user row of the `users` table. -/
structure UserRec where
  username : String
  password : HashStr
  secret : Option String
  id : Nat
  deriving DecidableEq

/-- The observable part of a JSON response: the `message` / `error` /
`jwt` fields of the body and the HTTP status. -/
structure ApiResp where
  message : Option String := none
  error : Option String := none
  jwt : Option EncToken := none
  status : Nat
  deriving DecidableEq

/-- `login` of `user_route.py`: required-field check, user lookup,
password verification (both lookup failure and verification failure
return the same generic response), opportunistic rehash-and-persist, then
a success response.  No session token appears anywhere in the handler.
`salt` models the fresh random salt a rehash would draw.  Returns the
response together with the possibly updated user table. -/
def login (db : List UserRec) (username password : String) (salt : Nat) :
    ApiResp × List UserRec :=
  if username = "" ∨ password = "" then
    ({ error := some "Username and password are required", status := 400 }, db)
  else
    match db.find? (fun u => u.username == username) with
    | none => ({ error := some "Invalid credentials", status := 401 }, db)
    | some user =>
      if verify_hash user.password password = false then
        ({ error := some "Invalid credentials", status := 401 }, db)
      else
        let db' :=
          if check_needs_rehash user.password then
            db.map (fun u =>
              if u.username == username then { u with password := hash_password password salt }
              else u)
          else db
        ({ message := some "Login successful", status := 200 }, db')

/-- `verify_totp` of `app/routes/totp_route.py`: required-field check,
user lookup (`Username not found`), secret presence check (`404`), TOTP
verification via the service, and on success a response carrying a
freshly generated JWT.  The post-conversion `if not secret` 500 branch is
unreachable for string secrets and is omitted. -/
def verify_totp (db : List UserRec) (username code : String) (now : Nat) : ApiResp :=
  if username = "" ∨ code = "" then
    { error := some "Username and code are required", status := 400 }
  else
    match db.find? (fun u => u.username == username) with
    | none => { error := some "Username not found", status := 401 }
    | some user =>
      match user.secret with
      | none => { error := some "TOTP not set up for this user", status := 404 }
      | some s =>
        if s = "" then { error := some "TOTP not set up for this user", status := 404 }
        else if totp_verify s code now then
          { message := some "TOTP verified successfully",
            jwt := some (generate_jwt username now), status := 200 }
        else { error := some "Invalid TOTP code", status := 401 }

/-! ## Helper lemmas about the regex models -/

/-- If `>` occurs in `l` then `hasGt l` holds. -/
theorem hasGt_of_mem (l : List Char) (h : '>' ∈ l) : hasGt l = true := by
  induction l with
  | nil => cases h
  | cons c rest ih =>
      rcases List.mem_cons.mp h with h1 | h2
      · subst h1; simp [hasGt]
      · simp [hasGt, ih h2]

/-- A `<` followed later by a `>` makes the HTML-tag regex match. -/
theorem hasTagPair_append (l1 l2 : List Char) (h : '>' ∈ l2) :
    hasTagPair (l1 ++ '<' :: l2) = true := by
  induction l1 with
  | nil => simp [hasTagPair, hasGt_of_mem l2 h]
  | cons c rest ih => simp [hasTagPair, ih]

/-- An anchored literal match exposes the pattern as a prefix. -/
theorem listStartsWith_ex (pat l : List Char) (h : listStartsWith l pat = true) :
    ∃ l2, l = pat ++ l2 := by
  induction pat generalizing l with
  | nil => exact ⟨l, rfl⟩
  | cons p ps ih =>
      cases l with
      | nil => simp [listStartsWith] at h
      | cons c cs =>
          simp [listStartsWith] at h
          obtain ⟨l2, hl2⟩ := ih cs h.2
          exact ⟨l2, by simp [h.1, hl2]⟩

/-- An unanchored literal match exposes the pattern as an infix. -/
theorem containsSub_ex (l pat : List Char) (h : containsSub l pat = true) :
    ∃ l1 l2, l = l1 ++ pat ++ l2 := by
  induction l with
  | nil =>
      obtain ⟨l2, hl2⟩ := listStartsWith_ex pat [] h
      exact ⟨[], l2, by simp [← hl2]⟩
  | cons c rest ih =>
      rcases (Bool.or_eq_true _ _).mp h with h1 | h1
      · obtain ⟨l2, hl2⟩ := listStartsWith_ex pat _ h1
        exact ⟨[], l2, by simp [hl2]⟩
      · obtain ⟨l1, l2, h12⟩ := ih h1
        exact ⟨c :: l1, l2, by simp [h12]⟩

/-! ## Claim theorems -/

/-- C8: for every password `p` (the empty string included) and every
fresh salt, verifying `p` against the hash just produced from `p`
succeeds: `verify(hash(p), p) = true`. -/
theorem claim8_hash_verify_roundtrip (p : String) (salt : Nat) :
    verify_hash (hash_password p salt) p = true := by
  simp [verify_hash, hash_password]

/-- C2: `validate_jwt` returns `true` exactly when the token is
well-formed, its signature verifies under the pinned HS256 algorithm
with the server secret, it is unexpired, and it is absent from the deny
list; the function is total (the handler's bare `except` collapses every
failure to `false`), so it never raises to the caller. -/
theorem claim2_validate_iff (st : JwtState) (t : EncToken) (now : Nat) :
    validate_jwt st t now =
      (wellFormed t && sigValidHS256 JWT_SECRET t && unexpired now t &&
        !(decide (t ∈ st.denyList))) := by
  by_cases hm : t ∈ st.denyList
  · simp [validate_jwt, hm]
  · cases t with
    | raw s => simp [validate_jwt, hm, jwtDecode, wellFormed]
    | tok alg p sig =>
        by_cases h1 : alg = "HS256" <;>
          by_cases h2 : sig = hmacSig JWT_SECRET p <;>
            by_cases h3 : now < p.exp <;>
              simp [validate_jwt, hm, jwtDecode, wellFormed, sigValidHS256, unexpired,
                h1, h2, h3]

/-- C3: `add_jwt_to_deny_list` raises exactly on the empty token; for a
non-empty token the call succeeds, after it `validate_jwt` rejects that
token (whatever its signature or expiry state), and revoking it again
succeeds and leaves the token rejected (idempotent with respect to the
validation outcome). -/
theorem claim3_revoke_denylist (st : JwtState) (t : EncToken) (now : Nat) :
    exceptOk (add_jwt_to_deny_list st t) = !(isEmptyTok t) ∧
    (∀ st1, add_jwt_to_deny_list st t = Except.ok st1 →
      validate_jwt st1 t now = false ∧
      ∃ st2, add_jwt_to_deny_list st1 t = Except.ok st2 ∧ validate_jwt st2 t now = false) := by
  constructor
  · by_cases h : isEmptyTok t <;> simp [add_jwt_to_deny_list, exceptOk, h]
  · intro st1 h1
    by_cases h : isEmptyTok t = true
    · simp [add_jwt_to_deny_list, h] at h1
    · simp only [add_jwt_to_deny_list, h, Bool.false_eq_true, if_false, Except.ok.injEq] at h1
      refine ⟨?_, ⟨t :: st1.denyList⟩, ?_, ?_⟩
      · rw [← h1]; simp [validate_jwt]
      · simp [add_jwt_to_deny_list, h]
      · simp [validate_jwt]

/-- A token signed with the pinned algorithm and the server secret over a
payload `p`. -/
def signedTok (p : JwtPayload) : EncToken := .tok "HS256" p (hmacSig JWT_SECRET p)

/-- C10: for a well-formed, correctly signed, unexpired token that is on
the deny list, `get_username_from_jwt` still returns the embedded
subject, while `validate_jwt` rejects the same token. -/
theorem claim10_decode_ignores_denylist (st : JwtState) (p : JwtPayload) (now : Nat)
    (hexp : now < p.exp) (hrev : signedTok p ∈ st.denyList) :
    get_username_from_jwt (signedTok p) now = some p.sub ∧
    validate_jwt st (signedTok p) now = false := by
  constructor
  · simp [get_username_from_jwt, signedTok, jwtDecode, hexp]
  · simp [validate_jwt, hrev]

/-- C10 witness: a concrete revoked-but-otherwise-valid token whose
subject is still decodable while validation rejects it. -/
theorem claim10_witness :
    get_username_from_jwt (signedTok ⟨"alice", 0, 1800⟩) 0 = some "alice" ∧
    validate_jwt ⟨[signedTok ⟨"alice", 0, 1800⟩]⟩ (signedTok ⟨"alice", 0, 1800⟩) 0 = false :=
  claim10_decode_ignores_denylist ⟨[signedTok ⟨"alice", 0, 1800⟩]⟩ ⟨"alice", 0, 1800⟩ 0
    (by decide) (by simp)

/-- C3 witness: concretely, revoking a fresh valid token succeeds and the
token then fails validation. -/
theorem claim3_witness :
    validate_jwt ⟨[signedTok ⟨"alice", 0, 1800⟩]⟩ (signedTok ⟨"alice", 0, 1800⟩) 5 = false :=
  ((claim3_revoke_denylist ⟨[]⟩ (signedTok ⟨"alice", 0, 1800⟩) 5).2
    ⟨[signedTok ⟨"alice", 0, 1800⟩]⟩ rfl).1

/-- The demonstration TOTP secret used in concrete counterexamples. -/
def demoSecret : String := "JBSWY3DPEHPK3PXP"

deriving instance DecidableEq for Except

/-- C4 counterexample: the source calls `pyotp`'s `verify` with its
default `valid_window = 0`, so at time `t = 60` the code of the
immediately preceding 30-second step (time 30) differs from the current
code and is rejected, refuting the claimed ±1 step window. -/
theorem claim4_counterexample :
    totp_at demoSecret 30 ≠ totp_at demoSecret 60 ∧
    verify_totp_code demoSecret (totp_at demoSecret 30) 60 = Except.ok false ∧
    verify_totp_code demoSecret (totp_at demoSecret 60) 60 = Except.ok true :=
  ⟨by decide, by decide, by decide⟩

/-- C4 (amended): with the `valid_window = 0` default actually used by
`Totp.verify_totp_code`, a non-empty code is accepted exactly when it
equals the code of the current 30-second step; any code differing from
the current step's code — in particular a preceding, following or
two-steps-back code whose value differs — is rejected. -/
theorem claim4_window_zero (secret code : String) (t : Nat)
    (hs : secret ≠ "") (hc : code ≠ "") :
    verify_totp_code secret code t = Except.ok (code == totp_at secret t) ∧
    (code ≠ totp_at secret t → verify_totp_code secret code t = Except.ok false) := by
  have h : ¬ (secret = "" ∨ code = "") := by tauto
  constructor
  · simp [verify_totp_code, h, totp_verify]
  · intro hne
    simp [verify_totp_code, h, totp_verify, hne]

/-- C4 witness: the amended statement evaluated at a concrete secret,
code and time. -/
theorem claim4_witness :
    verify_totp_code demoSecret "000000" 60 = Except.ok ("000000" == totp_at demoSecret 60) :=
  (claim4_window_zero demoSecret "000000" 60 (by decide) (by decide)).1

set_option maxRecDepth 4000 in
/-- C5 counterexample: a password of 256 identical characters has trimmed
length 256 > 255 and is nevertheless accepted, because the code's bound
is 512, not 255. -/
theorem claim5_counterexample :
    (pyStrip (String.mk (List.replicate 256 'a'))).length = 256 ∧
    is_valid_master_password (String.mk (List.replicate 256 'a')) = true :=
  ⟨by decide, by decide⟩

/-- C5 (amended): master-password validation accepts exactly the strings
whose trimmed length lies between 8 and 512 inclusive, and
application-password validation is that same bound conjoined with the
injection-risk check. -/
theorem claim5_password_bounds (p : String) :
    (is_valid_master_password p = true ↔
      8 ≤ (pyStrip p).length ∧ (pyStrip p).length ≤ 512) ∧
    is_valid_application_password p =
      (is_valid_master_password p && !(contains_xss_risk p)) := by
  refine ⟨?_, rfl⟩
  simp only [is_valid_master_password]
  split
  · rename_i h; simp only [Bool.false_eq_true, false_iff]; exact h
  · rename_i h; rw [not_not] at h; simp [h]

/-- C6 counterexample: the application-name validator does not trim, so
the one-space string — whose trimmed content is empty — is accepted,
refuting "rejects every string whose trimmed content is empty". -/
theorem claim6_counterexample :
    pyStrip " " = "" ∧ is_valid_application_name " " = true :=
  ⟨by decide, by decide⟩

set_option maxRecDepth 4000 in
/-- C6 (amended): application-name validation rejects the empty string
(the length bound is applied to the untrimmed string, so whitespace-only
names of length ≥ 1 pass), accepts an injection-marker-free name of
exactly 120 characters, rejects one of 121 characters, and rejects any
string containing `<script>` regardless of surrounding content. -/
theorem claim6_application_name (s : String)
    (hscript : containsSub s.data "<script>".data = true) :
    is_valid_application_name "" = false ∧
    is_valid_application_name (String.mk (List.replicate 120 'a')) = true ∧
    is_valid_application_name (String.mk (List.replicate 121 'a')) = false ∧
    is_valid_application_name s = false := by
  refine ⟨by decide, by decide, by decide, ?_⟩
  obtain ⟨l1, l2, hs⟩ := containsSub_ex s.data "<script>".data hscript
  have htag : hasTagPair s.data = true := by
    rw [hs]
    have : ("<script>".data : List Char) = '<' :: "script>".data := by decide
    rw [this, List.append_assoc, List.cons_append]
    exact hasTagPair_append l1 ("script>".data ++ l2)
      (List.mem_append.mpr (Or.inl (by decide)))
  have hx : contains_xss_risk s = true := by simp [contains_xss_risk, htag]
  simp [is_valid_application_name, hx]

/-- C6 witness: a concrete name containing `<script>` inside otherwise
valid content is rejected. -/
theorem claim6_witness :
    is_valid_application_name "" = false ∧
    is_valid_application_name (String.mk (List.replicate 120 'a')) = true ∧
    is_valid_application_name (String.mk (List.replicate 121 'a')) = false ∧
    is_valid_application_name "my<script>app" = false :=
  claim6_application_name "my<script>app" (by decide)

/-- C7 counterexample: the heuristic's first regex `<[^>]*>` needs a
closing `>` after the `<`, so the bare comparison string "5 < 10" is not
flagged and application-name validation accepts it, refuting the claimed
conservative rejection. -/
theorem claim7_counterexample :
    contains_xss_risk "5 < 10" = false ∧ is_valid_application_name "5 < 10" = true :=
  ⟨by decide, by decide⟩

/-- C7 (amended): the injection-risk heuristic flags any input in which a
`<` is followed later by a `>` (a bracketed pair), so inputs with both
comparison operators, such as "5 < 10 and 10 > 5", are rejected as
conservative false positives; an input with a bare `<` and no subsequent
`>`, such as "5 < 10", is not flagged and is accepted by application-name
validation. -/
theorem claim7_bracket_heuristic :
    (∀ (s : String) (l1 l2 : List Char), s.data = l1 ++ '<' :: l2 → '>' ∈ l2 →
      contains_xss_risk s = true) ∧
    (contains_xss_risk "5 < 10" = false ∧ is_valid_application_name "5 < 10" = true) ∧
    (contains_xss_risk "5 < 10 and 10 > 5" = true ∧
      is_valid_application_name "5 < 10 and 10 > 5" = false) := by
  refine ⟨?_, ⟨by decide, by decide⟩, ⟨by decide, by decide⟩⟩
  intro s l1 l2 hs hm
  have htag : hasTagPair s.data = true := by rw [hs]; exact hasTagPair_append l1 l2 hm
  simp [contains_xss_risk, htag]

/-- C7 witness: the bracketed-pair half of the amended statement at a
concrete input. -/
theorem claim7_witness : contains_xss_risk "a<b>" = true :=
  claim7_bracket_heuristic.1 "a<b>" ['a'] ['b', '>'] (by decide) (by decide)

/-- The stored hash of the demonstration account used in the C1
counterexample. -/
def demoHash : HashStr := hash_password "password123" 5

/-- A registered account with no MFA secret, used in the C1
counterexample. -/
def demoUser : UserRec := ⟨"a@b.co", demoHash, none, 1⟩

/-- C1 counterexample: a login whose password verification succeeds and
whose account has no MFA secret returns a 200 success response that
carries no session token at all — the login handler never calls the
token service — refuting "the login operation issues a session token". -/
theorem claim1_counterexample :
    verify_hash demoUser.password "password123" = true ∧
    (login [demoUser] "a@b.co" "password123" 7).1.status = 200 ∧
    (login [demoUser] "a@b.co" "password123" 7).1.message = some "Login successful" ∧
    (login [demoUser] "a@b.co" "password123" 7).1.jwt = none :=
  ⟨by decide, by decide, by decide, by decide⟩

/-- The `/jwt` blueprint's token-issuance handler,
`generate_jwt_session_token`, embedded from
`src/backend/route/jtw_route.py`; the registered route module
`backend/app/routes/jwt_route.py` (imported by `app/__init__.py` and
exercised by the auth-endpoint tests against `POST /jwt/token`) exposes
this same handler logic: require a username in the body, then return a
freshly generated JWT — with no password and no TOTP check. -/
def generate_jwt_session_token (username : String) (now : Nat) : ApiResp :=
  if username = "" then { error := some "Username is required", status := 400 }
  else { jwt := some (generate_jwt username now), status := 200 }

/-- C1 (amended): the login handler never issues a session token — its
response carries no token for any request, MFA-enabled or not.  Of the
two authentication handlers, only the TOTP verification handler issues a
token, namely precisely when the request fields are non-empty, the user
is found, an MFA secret is present and the submitted code verifies; that
handler performs no password verification.  In addition, the JWT route's
token endpoint issues a token for any non-empty username with no
password and no TOTP check at all — so a session token is obtainable
without the password check having succeeded. -/
theorem claim1_token_issuance :
    (∀ (db : List UserRec) (username password : String) (salt : Nat),
        (login db username password salt).1.jwt = none) ∧
    (∀ (db : List UserRec) (username code : String) (now : Nat),
        (verify_totp db username code now).jwt.isSome = true ↔
          username ≠ "" ∧ code ≠ "" ∧
          ∃ u, db.find? (fun r => r.username == username) = some u ∧
            ∃ s, u.secret = some s ∧ s ≠ "" ∧ totp_verify s code now = true) ∧
    (∀ (username : String) (now : Nat), username ≠ "" →
        (generate_jwt_session_token username now).jwt = some (generate_jwt username now)) := by
  refine ⟨?_, ?_, ?_⟩
  · intro db username password salt
    unfold login
    split
    · rfl
    · split
      · rfl
      · split
        · rfl
        · rfl
  · intro db username code now
    unfold verify_totp
    split
    · rename_i h
      rcases h with h | h <;> simp [h]
    · rename_i h
      push_neg at h
      split
      · rename_i hf
        simp [hf]
      · rename_i user hf
        rcases hsec : user.secret with _ | s
        · simp [hsec, hf, h.1, h.2]
        · simp only [hsec]
          split
          · rename_i hse
            simp [hf, hsec, hse, h.1, h.2]
          · rename_i hse
            split
            · rename_i hv
              simp [hf, hsec, hse, hv, h.1, h.2]
            · rename_i hv
              simp [hf, hsec, hse, hv, h.1, h.2]
  · intro username now h
    simp [generate_jwt_session_token, h]

/-- C1 witness: the no-authentication token endpoint concretely hands out
a signed JWT for a bare username. -/
theorem claim1_witness :
    (generate_jwt_session_token "dave@x.co" 0).jwt = some (generate_jwt "dave@x.co" 0) :=
  claim1_token_issuance.2.2 "dave@x.co" 0 (by decide)

/-- C9: at the password step, the unknown-username run and the
wrong-password run return the very same response (generic
`Invalid credentials`, 401), so a caller cannot distinguish them; at the
MFA verification step, the unknown-username run returns
`Username not found` while the wrong-code run returns
`Invalid TOTP code`, and those two responses are distinct. -/
theorem claim9_enumeration_asymmetry (db : List UserRec) (username password code : String)
    (salt now : Nat) (u : UserRec)
    (hu : username ≠ "") (hp : password ≠ "") (hc : code ≠ "") :
    (db.find? (fun r => r.username == username) = none →
      (login db username password salt).1 =
        { error := some "Invalid credentials", status := 401 }) ∧
    (db.find? (fun r => r.username == username) = some u →
      verify_hash u.password password = false →
      (login db username password salt).1 =
        { error := some "Invalid credentials", status := 401 }) ∧
    (db.find? (fun r => r.username == username) = none →
      verify_totp db username code now =
        { error := some "Username not found", status := 401 }) ∧
    (∀ s, db.find? (fun r => r.username == username) = some u → u.secret = some s →
      s ≠ "" → totp_verify s code now = false →
      verify_totp db username code now =
        { error := some "Invalid TOTP code", status := 401 }) ∧
    ({ error := some "Username not found", status := 401 } : ApiResp) ≠
      { error := some "Invalid TOTP code", status := 401 } := by
  have hne : ¬ (username = "" ∨ password = "") := by tauto
  have hne2 : ¬ (username = "" ∨ code = "") := by tauto
  refine ⟨?_, ?_, ?_, ?_, by decide⟩
  · intro hf; simp [login, hne, hf]
  · intro hf hv; simp [login, hne, hf, hv]
  · intro hf; simp [verify_totp, hne2, hf]
  · intro s hf hs hsne hverify
    simp [verify_totp, hne2, hf, hs, hsne, hverify]

/-- C9 witness: with a one-user table, querying the MFA step for an
unregistered username concretely yields the distinguishing
`Username not found` response. -/
theorem claim9_witness :
    verify_totp [⟨"bob@x.co", hash_password "correct-pass" 3, some "JBSWY3DPEHPK3PXP", 1⟩]
      "carol@x.co" "123456" 0 =
      { error := some "Username not found", status := 401 } :=
  (claim9_enumeration_asymmetry
      [⟨"bob@x.co", hash_password "correct-pass" 3, some "JBSWY3DPEHPK3PXP", 1⟩]
      "carol@x.co" "pw123456" "123456" 0 0
      ⟨"bob@x.co", hash_password "correct-pass" 3, some "JBSWY3DPEHPK3PXP", 1⟩
      (by decide) (by decide) (by decide)).2.2.1 (by decide)
